import Mathlib

/-!
Verification development for the pixelbot backend.

Shallow embedding of the Python sources:
* `backend/setup_pixeltable.py` — the seven `@pxt.query` retrieval functions
  (similarity search: `where` / `order_by sim desc` / `select` / `limit`);
* `backend/functions.py` — the pure context-fusion UDFs
  (`assemble_multimodal_context`, `assemble_final_messages`) and the
  registered tool UDFs (`get_latest_news`, `search_news`,
  `fetch_financial_data`);
* `backend/utils.py` — the `pxt_retry` transient-error retry shim;
* `backend/routers/chat.py` — the tail of the `/api/query` endpoint
  (answer resolution and chat-history writes);
* `backend/routers/database.py` — the pipeline-graph reconstructor
  (`_extract_func_name`, `_classify_func`, `_parse_deps`,
  `_detect_iterator`, `get_pipeline`).

External effects (the pixeltable store, HTTP calls, LLM providers, yfinance,
the embedding indexes) are modelled as explicit oracle inputs: e.g. the
per-row similarity score of an embedding index is a function argument
`simOf : Row → Score`, and the outcome of an HTTP request is a value of an
outcome type.  Similarity scores are modelled as rationals.  Opaque float
and datetime *formatting* (Python `f"{sim:.3f}"`, `strftime`) is modelled by
carrying the already-rendered string, since no claim depends on it.
-/

namespace Pixelbot

/-- Similarity scores (floats in the source) are modelled as rationals. -/
abbrev Score := ℚ

/-- A single apostrophe character; several source strings contain one. -/
def sq : String := String.mk [Char.ofNat 39]

/-! ## Pixeltable query semantics

A `@pxt.query` of the shape
`t.where(pred).order_by(sim, asc=False).select(f).limit(k)`
is a top-k query over the rows of the backing table: filter, sort by the
similarity score descending, project, truncate. -/

/-- `where(pred) . order_by(simOf, asc=False) . select(sel) . limit(k)`. -/
def pxtTopK {ρ σ : Type} (rows : List ρ) (pred : ρ → Bool) (simOf : ρ → Score)
    (sel : ρ → σ) (k : Nat) : List σ :=
  ((((rows.filter pred).mergeSort (fun a b => decide (simOf b ≤ simOf a)))).map sel).take k

theorem pxtTopK_length {ρ σ : Type} (rows : List ρ) (pred : ρ → Bool)
    (simOf : ρ → Score) (sel : ρ → σ) (k : Nat) :
    (pxtTopK rows pred simOf sel k).length ≤ k := by
  simp [pxtTopK]

theorem pxtTopK_mem {ρ σ : Type} {rows : List ρ} {pred : ρ → Bool}
    {simOf : ρ → Score} {sel : ρ → σ} {k : Nat} {x : σ}
    (hx : x ∈ pxtTopK rows pred simOf sel k) :
    ∃ r, r ∈ rows ∧ pred r = true ∧ x = sel r := by
  have hx' := List.mem_of_mem_take hx
  obtain ⟨r, hr, rfl⟩ := List.mem_map.mp hx'
  have hr' := (List.mergeSort_perm (rows.filter pred)
    (fun a b => decide (simOf b ≤ simOf a))).mem_iff.mp hr
  exact ⟨r, List.mem_of_mem_filter hr', List.of_mem_filter hr', rfl⟩

theorem pxtTopK_sorted {ρ σ : Type} (rows : List ρ) (pred : ρ → Bool)
    (simOf : ρ → Score) (sel : ρ → σ) (k : Nat) (simSel : σ → Score)
    (hsel : ∀ r, simSel (sel r) = simOf r) :
    (pxtTopK rows pred simOf sel k).Sorted (fun a b => simSel b ≤ simSel a) := by
  have hs : (List.mergeSort (rows.filter pred)
      (fun a b => decide (simOf b ≤ simOf a))).Pairwise
      (fun a b => simOf b ≤ simOf a) := by
    have := @List.sorted_mergeSort ρ
      (fun a b => decide (simOf b ≤ simOf a))
      (fun a b c hab hbc => by
        simp only [decide_eq_true_eq] at *
        exact le_trans hbc hab)
      (fun a b => by
        simpa using le_total (simOf b) (simOf a))
      (rows.filter pred)
    exact this.imp (by simp)
  have hmap : ((List.mergeSort (rows.filter pred)
      (fun a b => decide (simOf b ≤ simOf a))).map sel).Pairwise
      (fun a b => simSel b ≤ simSel a) := by
    refine (List.pairwise_map).mpr ?_
    exact hs.imp (fun {a b} h => by simpa [hsel] using h)
  exact hmap.sublist (List.take_sublist _ _)

/-! ## `setup_pixeltable.py` — retrieval query set

Row types carry the columns each query touches; values produced by computed
transforms in the `select` clause (base64 image encodings) are supplied by
an oracle `enc`.  Each `simOf` oracle stands for
`column.similarity(query_text)` of the embedding index, already applied to
the query text. -/

def DEFAULT_USER_ID : String := "local_user"

/-- A row of the `agents.chunks` view (document text chunks). -/
structure ChunkRow where
  user_id : String
  text : String
  document : String
  title : String
  heading : String
  page : Nat
deriving DecidableEq

/-- One hit of `search_documents`. -/
structure DocHit where
  text : String
  source_doc : String
  sim : Score
  title : String
  heading : String
  page_number : Nat
deriving DecidableEq

/-- Threshold in `search_documents` (`sim > 0.5`, setup_pixeltable.py:88). -/
def search_documents_threshold : Score := 1/2

/-- `search_documents` (setup_pixeltable.py:84-92). -/
def search_documents (chunks : List ChunkRow) (simOf : ChunkRow → Score)
    (user_id : String) : List DocHit :=
  pxtTopK chunks
    (fun r => r.user_id == user_id
      && decide (search_documents_threshold < simOf r)
      && decide (30 < r.text.length))
    simOf
    (fun r => { text := r.text, source_doc := r.document, sim := simOf r,
                title := r.title, heading := r.heading, page_number := r.page })
    20

/-- A row of the `agents.images` table. -/
structure ImageRow where
  user_id : String
  image : String
deriving DecidableEq

/-- One hit of `search_images`. -/
structure ImageHit where
  encoded_image : String
  sim : Score
deriving DecidableEq

/-- Threshold in `search_images` (`sim > 0.25`, setup_pixeltable.py:120). -/
def search_images_threshold : Score := 1/4

/-- `search_images` (setup_pixeltable.py:116-124); `enc` is the oracle for
`b64_encode(resize(image, (224,224)), "png")`. -/
def search_images (images : List ImageRow) (simOf : ImageRow → Score)
    (enc : ImageRow → String) (user_id : String) : List ImageHit :=
  pxtTopK images
    (fun r => r.user_id == user_id && decide (search_images_threshold < simOf r))
    simOf
    (fun r => { encoded_image := enc r, sim := simOf r })
    5

/-- A row of the `agents.video_frames` view. -/
structure FrameRow where
  user_id : String
  frame : String
  video : String
deriving DecidableEq

/-- One hit of `search_video_frames`. -/
structure FrameHit where
  encoded_frame : String
  source_video : String
  sim : Score
deriving DecidableEq

/-- Threshold in `search_video_frames` (`sim > 0.25`, setup_pixeltable.py:159). -/
def search_video_frames_threshold : Score := 1/4

/-- `search_video_frames` (setup_pixeltable.py:155-163); `enc` is the oracle
for `b64_encode(frame, "png")`. -/
def search_video_frames (frames : List FrameRow) (simOf : FrameRow → Score)
    (enc : FrameRow → String) (user_id : String) : List FrameHit :=
  pxtTopK frames
    (fun r => r.user_id == user_id && decide (search_video_frames_threshold < simOf r))
    simOf
    (fun r => { encoded_frame := enc r, source_video := r.video, sim := simOf r })
    5

/-- A row of the `agents.video_transcript_sentences` view. -/
structure VideoSentenceRow where
  user_id : String
  text : String
  video : String
deriving DecidableEq

/-- One hit of `search_video_transcripts`. -/
structure VideoTranscriptHit where
  text : String
  source_video : String
  sim : Score
deriving DecidableEq

/-- Threshold in `search_video_transcripts` (`sim > 0.7`, setup_pixeltable.py:200). -/
def search_video_transcripts_threshold : Score := 7/10

/-- `search_video_transcripts` (setup_pixeltable.py:195-204); scoped to
`config.DEFAULT_USER_ID`. -/
def search_video_transcripts (sentences : List VideoSentenceRow)
    (simOf : VideoSentenceRow → Score) : List VideoTranscriptHit :=
  pxtTopK sentences
    (fun r => r.user_id == DEFAULT_USER_ID
      && decide (search_video_transcripts_threshold < simOf r))
    simOf
    (fun r => { text := r.text, source_video := r.video, sim := simOf r })
    20

/-- A row of the `agents.audio_transcript_sentences` view. -/
structure AudioSentenceRow where
  user_id : String
  text : String
  audio : String
deriving DecidableEq

/-- One hit of `search_audio_transcripts`. -/
structure AudioTranscriptHit where
  text : String
  source_audio : String
  sim : Score
deriving DecidableEq

/-- Threshold in `search_audio_transcripts` (`sim > 0.6`, setup_pixeltable.py:244). -/
def search_audio_transcripts_threshold : Score := 3/5

/-- `search_audio_transcripts` (setup_pixeltable.py:239-248); scoped to
`config.DEFAULT_USER_ID`. -/
def search_audio_transcripts (sentences : List AudioSentenceRow)
    (simOf : AudioSentenceRow → Score) : List AudioTranscriptHit :=
  pxtTopK sentences
    (fun r => r.user_id == DEFAULT_USER_ID
      && decide (search_audio_transcripts_threshold < simOf r))
    simOf
    (fun r => { text := r.text, source_audio := r.audio, sim := simOf r })
    30

/-- A row of the `agents.memory_bank` table. -/
structure MemoryRow where
  user_id : String
  content : String
  type : String
  language : String
  context_query : String
deriving DecidableEq

/-- One hit of `search_memory`. -/
structure MemoryHit where
  content : String
  type : String
  language : String
  context_query : String
  sim : Score
deriving DecidableEq

/-- Threshold in `search_memory` (`sim > 0.8`, setup_pixeltable.py:282). -/
def search_memory_threshold : Score := 4/5

/-- `search_memory` (setup_pixeltable.py:278-286). -/
def search_memory (memory_bank : List MemoryRow) (simOf : MemoryRow → Score)
    (user_id : String) : List MemoryHit :=
  pxtTopK memory_bank
    (fun r => r.user_id == user_id && decide (search_memory_threshold < simOf r))
    simOf
    (fun r => { content := r.content, type := r.type, language := r.language,
                context_query := r.context_query, sim := simOf r })
    10

/-- A row of the `agents.chat_history` table. -/
structure ChatRow where
  user_id : String
  role : String
  content : String
deriving DecidableEq

/-- One hit of `search_chat_history`. -/
structure ChatHit where
  role : String
  content : String
  sim : Score
deriving DecidableEq

/-- Threshold in `search_chat_history` (`sim > 0.8`, setup_pixeltable.py:314). -/
def search_chat_history_threshold : Score := 4/5

/-- `search_chat_history` (setup_pixeltable.py:310-318). -/
def search_chat_history (chat_history : List ChatRow) (simOf : ChatRow → Score)
    (user_id : String) : List ChatHit :=
  pxtTopK chat_history
    (fun r => r.user_id == user_id && decide (search_chat_history_threshold < simOf r))
    simOf
    (fun r => { role := r.role, content := r.content, sim := simOf r })
    10

/-- Every hit of a top-k query satisfies a score bound implied by the
`where` predicate. -/
theorem pxtTopK_all_sim {ρ σ : Type} {rows : List ρ} {pred : ρ → Bool}
    {simOf : ρ → Score} {sel : ρ → σ} {k : Nat} (simSel : σ → Score)
    (hsel : ∀ r, simSel (sel r) = simOf r) (th : Score)
    (hpred : ∀ r, pred r = true → th < simOf r) :
    (pxtTopK rows pred simOf sel k).all (fun x => decide (th < simSel x)) = true := by
  refine List.all_eq_true.mpr ?_
  intro x hx
  obtain ⟨r, _, hpr, rfl⟩ := pxtTopK_mem hx
  simpa [hsel] using hpred r hpr

/-- The three C1 properties of a top-k query, bundled. -/
theorem pxtTopK_block {ρ σ : Type} (rows : List ρ) (pred : ρ → Bool)
    (simOf : ρ → Score) (sel : ρ → σ) (k : Nat) (simSel : σ → Score)
    (hsel : ∀ r, simSel (sel r) = simOf r) (th : Score)
    (hpred : ∀ r, pred r = true → th < simOf r) :
    (pxtTopK rows pred simOf sel k).all (fun x => decide (th < simSel x)) = true ∧
    (pxtTopK rows pred simOf sel k).Sorted (fun a b => simSel b ≤ simSel a) ∧
    (pxtTopK rows pred simOf sel k).length ≤ k :=
  ⟨pxtTopK_all_sim simSel hsel th hpred,
   pxtTopK_sorted rows pred simOf sel k simSel hsel,
   pxtTopK_length rows pred simOf sel k⟩

/-- C1: every item returned by any of the seven retrieval query functions
has similarity strictly above that modality's configured threshold, the
result list is sorted by similarity descending, and its length is at most
the configured limit. -/
theorem retrieval_results_filtered_sorted_bounded :
    (∀ (rows : List ChunkRow) (simOf : ChunkRow → Score) (u : String),
      (search_documents rows simOf u).all
          (fun h => decide (search_documents_threshold < h.sim)) = true ∧
      (search_documents rows simOf u).Sorted (fun a b => b.sim ≤ a.sim) ∧
      (search_documents rows simOf u).length ≤ 20) ∧
    (∀ (rows : List ImageRow) (simOf : ImageRow → Score)
        (enc : ImageRow → String) (u : String),
      (search_images rows simOf enc u).all
          (fun h => decide (search_images_threshold < h.sim)) = true ∧
      (search_images rows simOf enc u).Sorted (fun a b => b.sim ≤ a.sim) ∧
      (search_images rows simOf enc u).length ≤ 5) ∧
    (∀ (rows : List FrameRow) (simOf : FrameRow → Score)
        (enc : FrameRow → String) (u : String),
      (search_video_frames rows simOf enc u).all
          (fun h => decide (search_video_frames_threshold < h.sim)) = true ∧
      (search_video_frames rows simOf enc u).Sorted (fun a b => b.sim ≤ a.sim) ∧
      (search_video_frames rows simOf enc u).length ≤ 5) ∧
    (∀ (rows : List VideoSentenceRow) (simOf : VideoSentenceRow → Score),
      (search_video_transcripts rows simOf).all
          (fun h => decide (search_video_transcripts_threshold < h.sim)) = true ∧
      (search_video_transcripts rows simOf).Sorted (fun a b => b.sim ≤ a.sim) ∧
      (search_video_transcripts rows simOf).length ≤ 20) ∧
    (∀ (rows : List AudioSentenceRow) (simOf : AudioSentenceRow → Score),
      (search_audio_transcripts rows simOf).all
          (fun h => decide (search_audio_transcripts_threshold < h.sim)) = true ∧
      (search_audio_transcripts rows simOf).Sorted (fun a b => b.sim ≤ a.sim) ∧
      (search_audio_transcripts rows simOf).length ≤ 30) ∧
    (∀ (rows : List MemoryRow) (simOf : MemoryRow → Score) (u : String),
      (search_memory rows simOf u).all
          (fun h => decide (search_memory_threshold < h.sim)) = true ∧
      (search_memory rows simOf u).Sorted (fun a b => b.sim ≤ a.sim) ∧
      (search_memory rows simOf u).length ≤ 10) ∧
    (∀ (rows : List ChatRow) (simOf : ChatRow → Score) (u : String),
      (search_chat_history rows simOf u).all
          (fun h => decide (search_chat_history_threshold < h.sim)) = true ∧
      (search_chat_history rows simOf u).Sorted (fun a b => b.sim ≤ a.sim) ∧
      (search_chat_history rows simOf u).length ≤ 10) := by
  refine ⟨fun rows simOf u => ?_, fun rows simOf enc u => ?_,
    fun rows simOf enc u => ?_, fun rows simOf => ?_, fun rows simOf => ?_,
    fun rows simOf u => ?_, fun rows simOf u => ?_⟩
  · unfold search_documents
    refine pxtTopK_block _ _ simOf _ 20 (fun h : DocHit => h.sim) (fun r => rfl)
      search_documents_threshold ?_
    intro r hr
    simp only [Bool.and_eq_true, decide_eq_true_eq] at hr
    exact hr.1.2
  · unfold search_images
    refine pxtTopK_block _ _ simOf _ 5 (fun h : ImageHit => h.sim) (fun r => rfl)
      search_images_threshold ?_
    intro r hr
    simp only [Bool.and_eq_true, decide_eq_true_eq] at hr
    exact hr.2
  · unfold search_video_frames
    refine pxtTopK_block _ _ simOf _ 5 (fun h : FrameHit => h.sim) (fun r => rfl)
      search_video_frames_threshold ?_
    intro r hr
    simp only [Bool.and_eq_true, decide_eq_true_eq] at hr
    exact hr.2
  · unfold search_video_transcripts
    refine pxtTopK_block _ _ simOf _ 20 (fun h : VideoTranscriptHit => h.sim)
      (fun r => rfl) search_video_transcripts_threshold ?_
    intro r hr
    simp only [Bool.and_eq_true, decide_eq_true_eq] at hr
    exact hr.2
  · unfold search_audio_transcripts
    refine pxtTopK_block _ _ simOf _ 30 (fun h : AudioTranscriptHit => h.sim)
      (fun r => rfl) search_audio_transcripts_threshold ?_
    intro r hr
    simp only [Bool.and_eq_true, decide_eq_true_eq] at hr
    exact hr.2
  · unfold search_memory
    refine pxtTopK_block _ _ simOf _ 10 (fun h : MemoryHit => h.sim) (fun r => rfl)
      search_memory_threshold ?_
    intro r hr
    simp only [Bool.and_eq_true, decide_eq_true_eq] at hr
    exact hr.2
  · unfold search_chat_history
    refine pxtTopK_block _ _ simOf _ 10 (fun h : ChatHit => h.sim) (fun r => rfl)
      search_chat_history_threshold ?_
    intro r hr
    simp only [Bool.and_eq_true, decide_eq_true_eq] at hr
    exact hr.2

/-- A document chunk owned by `"u"` whose text is 31 characters long (so it
passes the degenerate-span filter `len(text) > 30`). -/
def c5_chunk : ChunkRow :=
  { user_id := "u", text := "0123456789012345678901234567890",
    document := "d", title := "t", heading := "h", page := 1 }

/-- C5 counterexample: the document-search and audio-transcript-search
thresholds do NOT lie in the range 0.7–0.8; concretely, `search_documents`
returns a chunk whose similarity is 0.6 < 0.7. -/
theorem search_thresholds_counterexample :
    ¬ ((7/10 : Score) ≤ search_documents_threshold ∧
        search_documents_threshold ≤ 4/5) ∧
    ¬ ((7/10 : Score) ≤ search_audio_transcripts_threshold ∧
        search_audio_transcripts_threshold ≤ 4/5) ∧
    search_documents [c5_chunk] (fun _ => 3/5) "u" =
      [{ text := c5_chunk.text, source_doc := "d", sim := 3/5,
         title := "t", heading := "h", page_number := 1 }] ∧
    (3/5 : Score) < 7/10 := by
  refine ⟨?_, ?_, ?_, by norm_num⟩
  · simp only [search_documents_threshold]
    norm_num
  · simp only [search_audio_transcripts_threshold]
    norm_num
  · simp only [search_documents, pxtTopK, List.filter]
    norm_num [search_documents_threshold, c5_chunk, List.mergeSort,
      show (decide (30 < ("0123456789012345678901234567890" : String).length))
          = true from by decide]

/-- C5 (amended): the default thresholds are 0.5 for document search, 0.6
for audio-transcript search, 0.7 for video-transcript search, 0.8 for
memory and chat-history search (so only the latter three lie in 0.7–0.8),
and 0.25 for the cross-modal image and video-frame searches. -/
theorem search_thresholds_values :
    search_documents_threshold = 1/2 ∧
    search_audio_transcripts_threshold = 3/5 ∧
    search_video_transcripts_threshold = 7/10 ∧
    search_memory_threshold = 4/5 ∧
    search_chat_history_threshold = 4/5 ∧
    search_images_threshold = 1/4 ∧
    search_video_frames_threshold = 1/4 ∧
    search_documents_threshold < 7/10 ∧
    search_audio_transcripts_threshold < 7/10 ∧
    (7/10 : Score) ≤ search_video_transcripts_threshold ∧
    search_video_transcripts_threshold ≤ 4/5 ∧
    (7/10 : Score) ≤ search_memory_threshold ∧
    search_memory_threshold ≤ 4/5 ∧
    (7/10 : Score) ≤ search_chat_history_threshold ∧
    search_chat_history_threshold ≤ 4/5 := by
  simp only [search_documents_threshold, search_audio_transcripts_threshold,
    search_video_transcripts_threshold, search_memory_threshold,
    search_chat_history_threshold, search_images_threshold,
    search_video_frames_threshold]
  norm_num

/-! ## `utils.py` — concurrency/retry shim

A Python exception is modelled by its class membership in `AssertionError`
plus its `str()` rendering.  The wrapped operation is an oracle
`fn : Nat → Except PyExc α` giving the outcome of its n-th invocation
(1-indexed).  `time.sleep`/`asyncio.sleep` durations are collected in a
trace; the sync and async wrappers of `pxt_retry` have identical logic and
are embedded once. -/

/-- A Python exception: whether it is an `AssertionError`, and `str(exc)`. -/
structure PyExc where
  is_assertion_error : Bool
  msg : String
deriving DecidableEq

/-- `_TRANSIENT_MESSAGES` (utils.py:20-25). -/
def TRANSIENT_MESSAGES : List String :=
  ["INTRANS", "This Connection is closed",
   "assert self._current_conn is not None", "not initialized"]

/-- Python `sub in s` substring containment. -/
def str_contains_sub (s sub : String) : Bool := decide (sub.data <:+: s.data)

/-- `_is_transient` (utils.py:28-33). -/
def is_transient (exc : PyExc) : Bool :=
  exc.is_assertion_error
    || TRANSIENT_MESSAGES.any (fun m => str_contains_sub exc.msg m)

/-- What Python raises at the dead `raise last_exc` line when `last_exc`
is still `None` (only reachable with `max_attempts = 0`). -/
def raise_none_exc : PyExc :=
  { is_assertion_error := false,
    msg := "TypeError: exceptions must derive from BaseException" }

/-- Observable behaviour of one wrapped call: its outcome, how many times
the operation was invoked, and the sleep durations in order. -/
structure RetryTrace (α : Type) where
  result : Except PyExc α
  calls : Nat
  sleeps : List ℚ

/-- The `for attempt in range(1, max_attempts + 1)` loop body of the
`pxt_retry` wrappers (utils.py:72-89). -/
def retry_go {α : Type} (fn : Nat → Except PyExc α) (max_attempts : Nat)
    (backoff : ℚ) (attempt : Nat) (wait : ℚ) (sleeps : List ℚ)
    (last_exc : Option PyExc) : RetryTrace α :=
  if _h : max_attempts < attempt then
    { result := .error (last_exc.getD raise_none_exc),
      calls := attempt - 1, sleeps := sleeps }
  else
    match fn attempt with
    | .ok v => { result := .ok v, calls := attempt, sleeps := sleeps }
    | .error exc =>
      if !is_transient exc || attempt == max_attempts then
        { result := .error exc, calls := attempt, sleeps := sleeps }
      else
        retry_go fn max_attempts backoff (attempt + 1) (wait * backoff)
          (sleeps ++ [wait]) (some exc)
termination_by max_attempts + 1 - attempt
decreasing_by omega

/-- `pxt_retry` (utils.py:36-91) applied to one operation, with the source
defaults `max_attempts=3, delay=0.5, backoff=2.0`. -/
def pxt_retry {α : Type} (fn : Nat → Except PyExc α) (max_attempts : Nat := 3)
    (delay : ℚ := 1/2) (backoff : ℚ := 2) : RetryTrace α :=
  retry_go fn max_attempts backoff 1 delay [] none

/-- In-loop runs (entered with `1 ≤ attempt ≤ max_attempts`) return from
inside the loop, call the operation at least once more, and append one
sleep of `wait * backoff ^ i` per extra attempt. -/
theorem retry_go_sleeps_loop {α : Type} (fn : Nat → Except PyExc α)
    (max_attempts : Nat) (backoff : ℚ) :
    ∀ (attempt : Nat) (wait : ℚ) (sleeps : List ℚ) (last_exc : Option PyExc),
      attempt ≤ max_attempts →
      attempt ≤ (retry_go fn max_attempts backoff attempt wait sleeps last_exc).calls ∧
      (retry_go fn max_attempts backoff attempt wait sleeps last_exc).sleeps
        = sleeps ++ (List.range
            ((retry_go fn max_attempts backoff attempt wait sleeps last_exc).calls
              - attempt)).map (fun i => wait * backoff ^ i) := by
  intro attempt wait sleeps last_exc hle
  generalize hfuel : max_attempts - attempt = fuel
  induction fuel generalizing attempt wait sleeps last_exc with
  | zero =>
      have hle : attempt = max_attempts := by omega
      rw [retry_go]
      have hnot : ¬ max_attempts < attempt := by omega
      simp only [hnot, dite_false]
      match hfn : fn attempt with
      | .ok v => simp
      | .error exc =>
          have : (attempt == max_attempts) = true := by simp [hle]
          simp [this]
  | succ fuel ih =>
      have hlt : attempt < max_attempts := by omega
      rw [retry_go]
      have hnot : ¬ max_attempts < attempt := by omega
      simp only [hnot, dite_false]
      match hfn : fn attempt with
      | .ok v => simp
      | .error exc =>
          by_cases htr : (!is_transient exc || attempt == max_attempts) = true
          · simp [htr]
          · have htr' : (!is_transient exc || attempt == max_attempts) = false := by
              revert htr
              cases (!is_transient exc || attempt == max_attempts) <;> simp
            simp only [htr', Bool.false_eq_true, if_false]
            have hrec := ih (attempt + 1) (wait * backoff) (sleeps ++ [wait])
              (some exc) (by omega) (by omega)
            refine ⟨by omega, ?_⟩
            rw [hrec.2]
            have hcalls : (retry_go fn max_attempts backoff (attempt + 1)
                (wait * backoff) (sleeps ++ [wait]) (some exc)).calls - attempt
                = ((retry_go fn max_attempts backoff (attempt + 1) (wait * backoff)
                    (sleeps ++ [wait]) (some exc)).calls - (attempt + 1)) + 1 := by
              have := hrec.1
              omega
            rw [hcalls, List.range_succ_eq_map, List.map_cons, List.map_map]
            simp only [pow_zero, mul_one, List.append_assoc, List.singleton_append]
            congr 1
            congr 1
            apply List.map_congr_left
            intro i _
            simp only [Function.comp_apply, pow_succ]
            ring

/-- C4: with the default parameters (3 attempts, base delay 0.5, backoff
factor 2.0): an operation failing transiently twice then succeeding is
invoked exactly 3 times and its success value is returned; a non-transient
failure is re-raised after exactly 1 invocation; three transient failures
exhaust the ceiling and the exception of the final attempt is re-raised
after exactly 3 invocations; and in general the sleep durations are
`delay * backoff ^ i` for successive retries `i = 0, 1, …`. -/
theorem pxt_retry_behavior :
    (∀ (fn : Nat → Except PyExc String) (e1 e2 : PyExc) (v : String),
      is_transient e1 = true → is_transient e2 = true →
      fn 1 = .error e1 → fn 2 = .error e2 → fn 3 = .ok v →
      pxt_retry fn = { result := .ok v, calls := 3, sleeps := [1/2, 1] }) ∧
    (∀ (fn : Nat → Except PyExc String) (e : PyExc),
      is_transient e = false → fn 1 = .error e →
      pxt_retry fn = { result := .error e, calls := 1, sleeps := [] }) ∧
    (∀ (fn : Nat → Except PyExc String) (e1 e2 e3 : PyExc),
      is_transient e1 = true → is_transient e2 = true → is_transient e3 = true →
      fn 1 = .error e1 → fn 2 = .error e2 → fn 3 = .error e3 →
      pxt_retry fn = { result := .error e3, calls := 3, sleeps := [1/2, 1] }) ∧
    (∀ (fn : Nat → Except PyExc String) (max_attempts : Nat) (delay backoff : ℚ),
      (pxt_retry fn max_attempts delay backoff).sleeps
        = (List.range ((pxt_retry fn max_attempts delay backoff).calls - 1)).map
            (fun i => delay * backoff ^ i)) := by
  refine ⟨?_, ?_, ?_, ?_⟩
  · intro fn e1 e2 v h1 h2 hf1 hf2 hf3
    rw [pxt_retry, retry_go]
    simp only [hf1, h1]
    norm_num
    rw [retry_go]
    simp only [hf2, h2]
    norm_num
    rw [retry_go]
    simp only [hf3]
    norm_num
  · intro fn e h1 hf1
    rw [pxt_retry, retry_go]
    simp [hf1, h1]
  · intro fn e1 e2 e3 h1 h2 h3 hf1 hf2 hf3
    rw [pxt_retry, retry_go]
    simp only [hf1, h1]
    norm_num
    rw [retry_go]
    simp only [hf2, h2]
    norm_num
    rw [retry_go]
    simp only [hf3, h3]
    norm_num
  · intro fn max_attempts delay backoff
    rcases Nat.eq_zero_or_pos max_attempts with h0 | hpos
    · subst h0
      rw [pxt_retry, retry_go]
      simp
    · have := retry_go_sleeps_loop fn max_attempts backoff 1 delay [] none hpos
      rw [pxt_retry]
      simpa using this.2

/-- A transient exception carrying one of the whitelisted messages. -/
def c4_transient_exc : PyExc :=
  { is_assertion_error := false,
    msg := "psycopg error: connection not initialized" }

/-- A bare `AssertionError` (also classified transient). -/
def c4_assertion_exc : PyExc := { is_assertion_error := true, msg := "" }

/-- A non-transient exception. -/
def c4_fatal_exc : PyExc :=
  { is_assertion_error := false, msg := "ValueError: boom" }

/-- Mock operation: transient failure on attempts 1-2, success on 3. -/
def c4_mock_recovers : Nat → Except PyExc String :=
  fun n => if n < 3 then .error c4_transient_exc else .ok "done"

/-- Mock operation: non-transient failure. -/
def c4_mock_fatal : Nat → Except PyExc String := fun _ => .error c4_fatal_exc

/-- Mock operation: transient failure on every attempt. -/
def c4_mock_always : Nat → Except PyExc String :=
  fun n => if n = 3 then .error c4_assertion_exc else .error c4_transient_exc

/-- Witness for C4 at the three concrete mock operations. -/
theorem pxt_retry_behavior_witness :
    pxt_retry c4_mock_recovers
      = { result := .ok "done", calls := 3, sleeps := [1/2, 1] } ∧
    pxt_retry c4_mock_fatal
      = { result := .error c4_fatal_exc, calls := 1, sleeps := [] } ∧
    pxt_retry c4_mock_always
      = { result := .error c4_assertion_exc, calls := 3, sleeps := [1/2, 1] } :=
  ⟨pxt_retry_behavior.1 c4_mock_recovers c4_transient_exc c4_transient_exc
      "done" (by decide) (by decide) rfl rfl rfl,
   pxt_retry_behavior.2.1 c4_mock_fatal c4_fatal_exc (by decide) rfl,
   pxt_retry_behavior.2.2.1 c4_mock_always c4_transient_exc c4_transient_exc
      c4_assertion_exc (by decide) (by decide) (by decide) rfl rfl rfl⟩

/-! ## `functions.py` — context fusion UDFs

Python values that only pass through opaque formatting are carried as
already-rendered strings: an item's `sim` float (rendered `f"| Sim: {s:.3f}"`
argument) and `timestamp` (rendered by `strftime`) are `Option String`
oracles, and a tool-output dict's `str()` is a `String` oracle.  `.get`
calls with a constant default are folded into the carried field value. -/

/-- Python `s.strip()`. -/
def py_strip (s : String) : String :=
  String.mk (((s.data.dropWhile Char.isWhitespace).reverse.dropWhile
    Char.isWhitespace).reverse)

/-- Python `s[:n]` (slicing by code points). -/
def py_slice (s : String) (n : Nat) : String := String.mk (s.data.take n)

/-- Python `os.path.basename` for POSIX paths. -/
def py_basename (s : String) : String := (s.splitOn "/").getLastD s

/-- Python `s.startswith(p)` (code-point prefix). -/
def py_startswith (s p : String) : Bool := p.data.isPrefixOf s.data

/-- Python truthiness of `Optional[str]`. -/
def py_truthy_str (o : Option String) : Bool :=
  match o with
  | some s => !s.isEmpty
  | none => false

/-- Python truthiness of `Optional[List[...]]`. -/
def py_truthy_list {α : Type} (o : Option (List α)) : Bool :=
  match o with
  | some l => !l.isEmpty
  | none => false

/-- One entry of `doc_context` (`Union[Dict, str]`): a hit dict carrying
the gotten `text` and `source_doc` values, or a plain non-dict value whose
`str()` is carried. -/
inductive DocItemPy where
  | dict (text : String) (source_doc : String)
  | plain (s : String)
deriving DecidableEq

/-- One entry of `memory_context`: field values as `item.get` returns them
(`content` defaulting to `""`, `type` to `"unknown"`, `context_query` to
`"Unknown Query"`); `sim` is the pre-rendered `f"{sim:.3f}"` when not None. -/
structure MemoryItemPy where
  content : String
  type : String
  language : Option String
  sim : Option String
  context_query : String
deriving DecidableEq

/-- One entry of `chat_memory_context`; `timestamp` is the pre-rendered
`strftime("%Y-%m-%d %H:%M")` when present and truthy. -/
structure ChatItemPy where
  content : String
  role : String
  sim : Option String
  timestamp : Option String
deriving DecidableEq

/-- The `doc_context_str` block (functions.py:265-275). -/
def doc_context_str (doc_context : Option (List DocItemPy)) : String :=
  if py_truthy_list doc_context then
    let doc_items := (doc_context.getD []).filterMap (fun item =>
      let text := match item with
        | .dict t _ => t
        | .plain s => s
      let source := match item with
        | .dict _ sd => sd
        | .plain _ => "Unknown Document"
      if !text.isEmpty then
        some ("- [Source: " ++ py_basename source ++ "] " ++ text)
      else none)
    if !doc_items.isEmpty then String.intercalate "\n" doc_items else "N/A"
  else "N/A"

/-- The per-item `item_desc` of the memory block (functions.py:286-287). -/
def render_memory_item (item : MemoryItemPy) : String :=
  "- [Memory Item | Type: " ++ item.type
    ++ (if py_truthy_str item.language then
          " (" ++ item.language.getD "" ++ ")" else "")
    ++ " | Original Query: " ++ sq ++ item.context_query ++ sq ++ " "
    ++ (match item.sim with
        | some s => "| Sim: " ++ s
        | none => "")
    ++ "]\nContent: " ++ py_slice item.content 100
    ++ (if 100 < item.content.length then "..." else "")

/-- The `memory_context_str` block (functions.py:277-290). -/
def memory_context_str (memory_context : Option (List MemoryItemPy)) : String :=
  if py_truthy_list memory_context then
    let memory_items := (memory_context.getD []).map render_memory_item
    if !memory_items.isEmpty then String.intercalate "\n" memory_items else "N/A"
  else "N/A"

/-- The per-item `item_desc` of the chat-history block (functions.py:301-302). -/
def render_chat_item (item : ChatItemPy) : String :=
  "- [Chat History | Role: " ++ item.role ++ " | Time: "
    ++ (match item.timestamp with
        | some t => t
        | none => "Unknown Time")
    ++ " "
    ++ (match item.sim with
        | some s => "| Sim: " ++ s
        | none => "")
    ++ "]\nContent: " ++ py_slice item.content 150
    ++ (if 150 < item.content.length then "..." else "")

/-- The `chat_memory_context_str` block (functions.py:292-305). -/
def chat_memory_context_str (chat_memory_context : Option (List ChatItemPy)) :
    String :=
  if py_truthy_list chat_memory_context then
    let chat_memory_items := (chat_memory_context.getD []).map render_chat_item
    if !chat_memory_items.isEmpty then
      String.intercalate "\n" chat_memory_items
    else "N/A"
  else "N/A"

/-- `str(tool_outputs) if tool_outputs else "N/A"` (functions.py:307); the
`str()` of each tool-output dict is an oracle string. -/
def tool_outputs_str (tool_outputs : Option (List String)) : String :=
  if py_truthy_list tool_outputs then
    "[" ++ String.intercalate ", " (tool_outputs.getD []) ++ "]"
  else "N/A"

/-- The `text_content` f-string of `assemble_multimodal_context`
(functions.py:309-327), including the final `.strip()`. -/
def multimodal_template (question toolS docS memS chatS : String) : String :=
  py_strip ("\nORIGINAL QUESTION:\n" ++ question
    ++ "\n\nAVAILABLE CONTEXT:\n\n[TOOL RESULTS]\n" ++ toolS
    ++ "\n\n[DOCUMENT CONTEXT]\n" ++ docS
    ++ "\n\n[MEMORY BANK CONTEXT]\n" ++ memS
    ++ "\n\n[CHAT HISTORY SEARCH CONTEXT] (Older messages relevant to the query)\n"
    ++ chatS ++ "\n")

/-- `assemble_multimodal_context` (functions.py:256-327). -/
def assemble_multimodal_context (question : String)
    (tool_outputs : Option (List String)) (doc_context : Option (List DocItemPy))
    (memory_context : Option (List MemoryItemPy) := none)
    (chat_memory_context : Option (List ChatItemPy) := none) : String :=
  multimodal_template question (tool_outputs_str tool_outputs)
    (doc_context_str doc_context) (memory_context_str memory_context)
    (chat_memory_context_str chat_memory_context)

set_option maxRecDepth 40000 in
/-- C2: `assemble_multimodal_context` is total; with all four optional
inputs `None` every named section renders as `"N/A"`; memory item content
is cut to its first 100 characters and chat item content to its first 150
characters before rendering. -/
theorem assemble_multimodal_context_total :
    (∀ q : String,
      assemble_multimodal_context q none none none none
        = multimodal_template q "N/A" "N/A" "N/A" "N/A") ∧
    tool_outputs_str none = "N/A" ∧
    doc_context_str none = "N/A" ∧
    memory_context_str none = "N/A" ∧
    chat_memory_context_str none = "N/A" ∧
    assemble_multimodal_context "What is providence?" none none none none
      = "ORIGINAL QUESTION:\nWhat is providence?\n\nAVAILABLE CONTEXT:\n\n[TOOL RESULTS]\nN/A\n\n[DOCUMENT CONTEXT]\nN/A\n\n[MEMORY BANK CONTEXT]\nN/A\n\n[CHAT HISTORY SEARCH CONTEXT] (Older messages relevant to the query)\nN/A" ∧
    (∀ it : MemoryItemPy, ∃ before,
      render_memory_item it
        = before ++ "]\nContent: " ++ py_slice it.content 100
            ++ (if 100 < it.content.length then "..." else "") ∧
      (py_slice it.content 100).length ≤ 100) ∧
    (∀ it : ChatItemPy, ∃ before,
      render_chat_item it
        = before ++ "]\nContent: " ++ py_slice it.content 150
            ++ (if 150 < it.content.length then "..." else "") ∧
      (py_slice it.content 150).length ≤ 150) := by
  refine ⟨fun q => rfl, rfl, rfl, rfl, rfl, by decide, ?_, ?_⟩
  · intro it
    exact ⟨_, rfl, List.length_take_le _ _⟩
  · intro it
    exact ⟨_, rfl, List.length_take_le _ _⟩

/-- A Python value found under a media item's payload key: a `str`, a
`bytes` value (carried in its UTF-8-decoded form), or something else. -/
inductive PyPayload where
  | str (s : String)
  | bytes (s : String)
  | other
deriving DecidableEq

/-- One entry of `image_context` / `video_frame_context`: either not a
dict, or a dict in which the looked-up key (`encoded_image` resp.
`encoded_video_frame`) is absent (`none`) or maps to a payload. -/
inductive MediaItem where
  | notDict
  | dict (payload : Option PyPayload)
deriving DecidableEq

/-- One recent-history turn as returned by the store: `item.get("role")`
and `item.get("content")`. -/
structure HistoryItem where
  role : Option String
  content : Option String
deriving DecidableEq

/-- One content block of the final user message. -/
inductive Block where
  | image (data : String)
  | videoFrame (data : String)
  | text (t : String)
deriving DecidableEq

/-- A message's `content`: a plain string (history turns) or a block list
(the final user turn). -/
inductive MessageContent where
  | str (s : String)
  | blocks (bs : List Block)
deriving DecidableEq

/-- One entry of the returned message list. -/
structure Message where
  role : String
  content : MessageContent
deriving DecidableEq

/-- `assemble_final_messages` (functions.py:330-389).  `bytes` payloads are
carried decoded, so `data.decode("utf-8")` is the identity on the carried
string; payloads that are neither `str` nor `bytes` hit the `continue`. -/
def assemble_final_messages (history_context : Option (List HistoryItem))
    (multimodal_context_text : String)
    (image_context : Option (List MediaItem) := none)
    (video_frame_context : Option (List MediaItem) := none) : List Message :=
  let messages : List Message :=
    if py_truthy_list history_context then
      ((history_context.getD []).reverse).filterMap (fun item =>
        match item.role, item.content with
        | some r, some c =>
            if !r.isEmpty && !c.isEmpty then
              some { role := r, content := .str c }
            else none
        | _, _ => none)
    else []
  let image_blocks : List Block :=
    if py_truthy_list image_context then
      (image_context.getD []).filterMap (fun item =>
        match item with
        | .dict (some (.str s)) => some (Block.image s)
        | .dict (some (.bytes b)) => some (Block.image b)
        | _ => none)
    else []
  let frame_blocks : List Block :=
    if py_truthy_list video_frame_context then
      (video_frame_context.getD []).filterMap (fun item =>
        match item with
        | .dict (some (.str s)) => some (Block.videoFrame s)
        | .dict (some (.bytes b)) => some (Block.videoFrame b)
        | _ => none)
    else []
  let final_user_content :=
    image_blocks ++ frame_blocks ++ [Block.text multimodal_context_text]
  messages ++ [{ role := "user", content := .blocks final_user_content }]

/-- The history turns that survive the `if role and content` guard, in
chronological (reversed) order. -/
def history_turn_messages (history_context : Option (List HistoryItem)) :
    List Message :=
  ((history_context.getD []).reverse).filterMap (fun item =>
    match item.role, item.content with
    | some r, some c =>
        if !r.isEmpty && !c.isEmpty then
          some { role := r, content := .str c }
        else none
    | _, _ => none)

/-- The string a media item contributes: its `str` payload, its decoded
`bytes` payload, or nothing. -/
def media_payload (item : MediaItem) : Option String :=
  match item with
  | .dict (some (.str s)) => some s
  | .dict (some (.bytes b)) => some b
  | _ => none

/-- The block list the last user message must carry: one image block per
string/bytes image payload, one video-frame block per string/bytes frame
payload, then the trailing text block. -/
def final_user_blocks (t : String) (ic fc : Option (List MediaItem)) :
    List Block :=
  ((ic.getD []).filterMap media_payload).map Block.image
    ++ ((fc.getD []).filterMap media_payload).map Block.videoFrame
    ++ [Block.text t]

theorem truthy_guard {α β : Type} (o : Option (List α)) (g : List α → List β)
    (hg : g [] = []) :
    (if py_truthy_list o then g (o.getD []) else []) = g (o.getD []) := by
  cases o with
  | none => simpa [py_truthy_list] using hg.symm
  | some l => cases l <;> simp [py_truthy_list, hg]

/-- C3 counterexample: an image item that is a dict without the
`encoded_image` key produces no image block, so the final user content does
not contain one block per image item. -/
theorem assemble_final_messages_counterexample :
    assemble_final_messages none "ctx" (some [MediaItem.dict none]) none
      = [{ role := "user", content := .blocks [Block.text "ctx"] }] ∧
    [MediaItem.dict none].length = 1 ∧
    (∀ d : String, [Block.text "ctx"] ≠ [Block.image d, Block.text "ctx"]) := by
  refine ⟨by decide, rfl, ?_⟩
  intro d h
  simp at h

/-- C3 (amended): the returned message list is always non-empty and equals
the surviving history turns (reversed, oldest first) followed by one final
`user` message whose block list is one image block per image item carrying
a string or bytes `encoded_image` payload (in retrieval order, bytes
decoded to strings), then one video-frame block per frame item carrying a
string or bytes `encoded_video_frame` payload, then exactly one trailing
text block holding the fused text. -/
theorem assemble_final_messages_shape :
    ∀ (h : Option (List HistoryItem)) (t : String)
      (ic fc : Option (List MediaItem)),
      assemble_final_messages h t ic fc
        = history_turn_messages h
          ++ [{ role := "user", content := .blocks (final_user_blocks t ic fc) }] ∧
      assemble_final_messages h t ic fc ≠ [] ∧
      (assemble_final_messages h t ic fc).getLast?
        = some { role := "user", content := .blocks (final_user_blocks t ic fc) } ∧
      (final_user_blocks t ic fc).getLast? = some (Block.text t) := by
  intro h t ic fc
  have himg : ∀ (l : List MediaItem),
      l.filterMap (fun item =>
        match item with
        | .dict (some (.str s)) => some (Block.image s)
        | .dict (some (.bytes b)) => some (Block.image b)
        | _ => none)
      = (l.filterMap media_payload).map Block.image := by
    intro l
    rw [List.map_filterMap]
    apply List.filterMap_congr
    intro a _
    rcases a with _ | p
    · rfl
    · rcases p with _ | pl
      · rfl
      · cases pl <;> rfl
  have hfrm : ∀ (l : List MediaItem),
      l.filterMap (fun item =>
        match item with
        | .dict (some (.str s)) => some (Block.videoFrame s)
        | .dict (some (.bytes b)) => some (Block.videoFrame b)
        | _ => none)
      = (l.filterMap media_payload).map Block.videoFrame := by
    intro l
    rw [List.map_filterMap]
    apply List.filterMap_congr
    intro a _
    rcases a with _ | p
    · rfl
    · rcases p with _ | pl
      · rfl
      · cases pl <;> rfl
  have hmain : assemble_final_messages h t ic fc
      = history_turn_messages h
        ++ [{ role := "user",
              content := .blocks (final_user_blocks t ic fc) }] := by
    simp only [assemble_final_messages, final_user_blocks]
    rw [truthy_guard h (fun l => l.reverse.filterMap _) rfl,
      truthy_guard ic (fun l => l.filterMap _) rfl,
      truthy_guard fc (fun l => l.filterMap _) rfl, himg, hfrm]
    rfl
  refine ⟨hmain, ?_, ?_, ?_⟩
  · rw [hmain]
    simp
  · rw [hmain]
    exact List.getLast?_concat _
  · rw [final_user_blocks]
    exact List.getLast?_concat _

/-- Witness for C3 at a concrete history turn and a bytes image payload. -/
theorem assemble_final_messages_shape_witness :
    assemble_final_messages (some [{ role := some "user", content := some "hi" }])
        "fused" (some [MediaItem.dict (some (.bytes "IMG"))]) none
      = [{ role := "user", content := .str "hi" },
         { role := "user",
           content := .blocks [Block.image "IMG", Block.text "fused"] }] ∧
    assemble_final_messages (some [{ role := some "user", content := some "hi" }])
        "fused" (some [MediaItem.dict (some (.bytes "IMG"))]) none ≠ [] := by
  have h := assemble_final_messages_shape
    (some [{ role := some "user", content := some "hi" }]) "fused"
    (some [MediaItem.dict (some (.bytes "IMG"))]) none
  exact ⟨h.1.trans (by decide), h.2.1⟩

/-! ## `functions.py` — registered tool UDFs

Each tool wraps its whole body in `try/except` handlers whose final clause
catches `Exception`, so every internal failure is mapped to an error
string.  External library behaviour is an oracle: the outcome of
`requests.get` / `DDGS().news` / yfinance access is an input value, and
code locations that can raise are carried as `Except String` outcomes
(the `String` being `str(e)` of the raised exception). -/

/-- One parsed NewsAPI article, as consumed by the formatting loop: the
outcomes of the date pipeline (`article["publishedAt"]` → `fromisoformat` →
`strftime`, which raises on a missing key or malformed date) and of
rendering `article['title']` / `article['description']`. -/
structure NewsArticle where
  pub_date : Except String String
  title : Except String String
  description : Except String String

/-- Outcome of `requests.get(url, params, timeout=10)` plus `.json()`. -/
inductive NewsApiOutcome where
  | timeoutErr
  | reqErr (msg : String)
  | raised (msg : String)
  | resp (status : Nat) (body : String) (articles : List NewsArticle)

/-- The exception classes distinguished by `get_latest_news`'s handlers. -/
inductive NewsExc where
  | timeout
  | reqExc (msg : String)
  | otherExc (msg : String)

/-- The `for i, article in enumerate(articles[:3], 1)` formatting loop of
`get_latest_news` (functions.py:41-48); any raise aborts the loop. -/
def format_articles : List NewsArticle → Nat → Except String (List String)
  | [], _ => .ok []
  | a :: rest, i =>
    match a.pub_date with
    | .error m => .error m
    | .ok pd =>
      match a.title with
      | .error m => .error m
      | .ok ti =>
        match a.description with
        | .error m => .error m
        | .ok de =>
          match format_articles rest (i + 1) with
          | .error m => .error m
          | .ok tail =>
            .ok ((toString i ++ ". [" ++ pd ++ "] " ++ ti ++ "\n   " ++ de)
              :: tail)

/-- The `try` body of `get_latest_news` (functions.py:16-50). -/
def get_latest_news_body (topic : String) (api_key : Option String)
    (http : NewsApiOutcome) : Except NewsExc String :=
  if !py_truthy_str api_key then
    .ok "Error: NewsAPI key not found in environment variables."
  else
    match http with
    | .timeoutErr => .error .timeout
    | .reqErr m => .error (.reqExc m)
    | .raised m => .error (.otherExc m)
    | .resp status body articles =>
      if status ≠ 200 then
        .ok ("Error: NewsAPI request failed (" ++ toString status ++ "): "
          ++ body)
      else if articles.isEmpty then
        .ok ("No recent news found for " ++ sq ++ topic ++ sq ++ ".")
      else
        match format_articles (articles.take 3) 1 with
        | .error m => .error (.otherExc m)
        | .ok parts => .ok (String.intercalate "\n\n" parts)

/-- `get_latest_news` (functions.py:13-57): the `try` body with its three
`except` handlers. -/
def get_latest_news (topic : String) (api_key : Option String)
    (http : NewsApiOutcome) : String :=
  match get_latest_news_body topic api_key http with
  | .ok s => s
  | .error .timeout => "Error: NewsAPI request timed out."
  | .error (.reqExc m) => "Error making NewsAPI request: " ++ m
  | .error (.otherExc m) => "Unexpected error fetching news: " ++ m ++ "."

/-- One DuckDuckGo news result dict; each field is `r.get(key, "N/A")`. -/
structure DdgResult where
  title : Option String
  source : Option String
  date : Option String
  url : Option String
  body : Option String
deriving DecidableEq

/-- `search_news` (functions.py:60-89).  `ddg` is the outcome of building
and iterating `DDGS().news(...)` (whose `max_results` capping happens
inside the library); a raise anywhere in the `try` hits the catch-all. -/
def search_news (keywords : String) (ddg : Except String (List DdgResult)) :
    String :=
  match ddg with
  | .error m => "Search failed: " ++ m ++ "."
  | .ok results =>
    if results.isEmpty then "No news results found."
    else
      String.intercalate "\n" (results.mapIdx (fun i r =>
        toString (i + 1) ++ ". Title: " ++ r.title.getD "N/A"
          ++ "\n   Source: " ++ r.source.getD "N/A"
          ++ "\n   Published: " ++ r.date.getD "N/A"
          ++ "\n   URL: " ++ r.url.getD "N/A"
          ++ "\n   Snippet: " ++ r.body.getD "N/A" ++ "\n"))

/-- The yfinance-dependent data of `fetch_financial_data`:
`is_degenerate` is `not info or info.get("quoteType") == "MUTUALFUND"`;
`hist` is the outcome of `stock.history(period="1d")` (`none` = empty
frame, otherwise the rendered previous close); `rendered` is the outcome
of the `data_points` construction and formatting loop (functions.py:109-170),
whose value passes through unchanged. -/
structure FinInfo where
  is_degenerate : Bool
  hist : Except String (Option String)
  rendered : Except String String

/-- The `try` body of `fetch_financial_data` (functions.py:95-170); `fetch`
is the outcome of `yf.Ticker(ticker)` / `stock.info`. -/
def fetch_financial_data_body (ticker : String)
    (fetch : Except String FinInfo) : Except String String :=
  if ticker.isEmpty then .ok "Error: No ticker symbol provided."
  else
    match fetch with
    | .error m => .error m
    | .ok fi =>
      if fi.is_degenerate then
        match fi.hist with
        | .error m => .error m
        | .ok none =>
          .ok ("Error: No data found for ticker " ++ sq ++ ticker ++ sq
            ++ ". It might be delisted or incorrect.")
        | .ok (some close) =>
          .ok ("Limited info for " ++ sq ++ ticker ++ sq
            ++ ". Previous Close: " ++ close ++ " (if available).")
      else
        match fi.rendered with
        | .error m => .error m
        | .ok s => .ok s

/-- `fetch_financial_data` (functions.py:92-174): the `try` body with its
catch-all handler. -/
def fetch_financial_data (ticker : String) (fetch : Except String FinInfo) :
    String :=
  match fetch_financial_data_body ticker fetch with
  | .ok s => s
  | .error m =>
    "Error fetching financial data for " ++ ticker ++ ": " ++ m ++ "."

theorem append_isEmpty_false (a k : String) (ha : a ≠ "") :
    (a ++ k).isEmpty = false := by
  have hne : a ++ k ≠ "" := by
    intro hcon
    apply ha
    have hlen := congrArg String.length hcon
    simp only [String.length_append,
      show ("" : String).length = 0 from rfl] at hlen
    have h0 : a.length = 0 := by omega
    cases a with
    | mk data =>
        cases data with
        | nil => rfl
        | cons c cs => simp [String.length] at h0
  cases hE : (a ++ k).isEmpty with
  | false => rfl
  | true => exact absurd ((String.isEmpty_iff _).mp hE) hne

theorem truthy_str_append (a k : String) (ha : a ≠ "") :
    py_truthy_str (some (a ++ k)) = true := by
  simp [py_truthy_str, append_isEmpty_false a k ha]

/-- C7: the registered tool functions are total Lean functions of their
oracle inputs (so no exception escapes to the caller), and every internal
failure — missing API key, HTTP timeout, request failure, non-200 status,
an exception raised anywhere in the body, an unknown ticker — is reported
as a human-readable error string return value.  (`api_key = some ("k" ++ k)`
ranges over all non-empty keys, `"A" ++ t` over all non-empty tickers.) -/
theorem tool_functions_return_error_strings :
    (∀ (topic : String) (http : NewsApiOutcome),
      get_latest_news topic none http
        = "Error: NewsAPI key not found in environment variables.") ∧
    (∀ (topic : String) (http : NewsApiOutcome),
      get_latest_news topic (some "") http
        = "Error: NewsAPI key not found in environment variables.") ∧
    (∀ (topic k : String),
      get_latest_news topic (some ("k" ++ k)) .timeoutErr
        = "Error: NewsAPI request timed out.") ∧
    (∀ (topic k m : String),
      get_latest_news topic (some ("k" ++ k)) (.reqErr m)
        = "Error making NewsAPI request: " ++ m) ∧
    (∀ (topic k m : String),
      get_latest_news topic (some ("k" ++ k)) (.raised m)
        = "Unexpected error fetching news: " ++ m ++ ".") ∧
    (∀ (topic k body : String) (articles : List NewsArticle),
      get_latest_news topic (some ("k" ++ k)) (.resp 500 body articles)
        = "Error: NewsAPI request failed (500): " ++ body) ∧
    (∀ (topic k body : String),
      get_latest_news topic (some ("k" ++ k)) (.resp 200 body [])
        = "No recent news found for " ++ sq ++ topic ++ sq ++ ".") ∧
    (∀ (topic k body m : String) (rest : List NewsArticle),
      get_latest_news topic (some ("k" ++ k))
          (.resp 200 body ((NewsArticle.mk (.error m) (.ok "T") (.ok "D")) :: rest))
        = "Unexpected error fetching news: " ++ m ++ ".") ∧
    (∀ (keywords m : String),
      search_news keywords (.error m) = "Search failed: " ++ m ++ ".") ∧
    (∀ (keywords : String),
      search_news keywords (.ok []) = "No news results found.") ∧
    (∀ (fetch : Except String FinInfo),
      fetch_financial_data "" fetch = "Error: No ticker symbol provided.") ∧
    (∀ (t m : String),
      fetch_financial_data ("A" ++ t) (.error m)
        = "Error fetching financial data for " ++ ("A" ++ t) ++ ": " ++ m
            ++ ".") ∧
    (∀ (t : String) (r : Except String String),
      fetch_financial_data ("A" ++ t)
          (.ok { is_degenerate := true, hist := .ok none, rendered := r })
        = "Error: No data found for ticker " ++ sq ++ ("A" ++ t) ++ sq
            ++ ". It might be delisted or incorrect.") ∧
    (∀ (t m : String) (h : Except String (Option String)),
      fetch_financial_data ("A" ++ t)
          (.ok { is_degenerate := false, hist := h, rendered := .error m })
        = "Error fetching financial data for " ++ ("A" ++ t) ++ ": " ++ m
            ++ ".") := by
  have hkey : ∀ k : String, py_truthy_str (some ("k" ++ k)) = true :=
    fun k => truthy_str_append "k" k (by decide)
  have hticker : ∀ t : String, ("A" ++ t).isEmpty = false :=
    fun t => append_isEmpty_false "A" t (by decide)
  refine ⟨fun topic http => rfl, fun topic http => rfl, ?_, ?_, ?_, ?_, ?_, ?_,
    fun keywords m => rfl, fun keywords => rfl, fun fetch => rfl, ?_, ?_, ?_⟩
  · intro topic k
    simp [get_latest_news, get_latest_news_body, hkey]
  · intro topic k m
    simp [get_latest_news, get_latest_news_body, hkey]
  · intro topic k m
    simp [get_latest_news, get_latest_news_body, hkey]
  · intro topic k body articles
    simp [get_latest_news, get_latest_news_body, hkey]
    rfl
  · intro topic k body
    simp [get_latest_news, get_latest_news_body, hkey]
  · intro topic k body m rest
    simp [get_latest_news, get_latest_news_body, hkey, format_articles]
  · intro t m
    simp [fetch_financial_data, fetch_financial_data_body, hticker]
  · intro t r
    simp [fetch_financial_data, fetch_financial_data_body, hticker]
  · intro t m h
    simp [fetch_financial_data, fetch_financial_data_body, hticker]

/-! ## `routers/chat.py` — `/api/query` endpoint tail

The computed record row selected after the synchronous insert is an oracle.
Modelled from the spec: for a record whose answer-generation stage (7) or
answer-extraction stage (8) could not resolve, the row read back exposes no
answer value (the store's collect/row semantics for unresolved computed
fields are outside src/); `chat.py` then substitutes the sentinel via
`result_data.get("answer", "Error: Answer not generated.")`. -/

/-- The sentinel answer (chat.py:151 and 173). -/
def ANSWER_SENTINEL : String := "Error: Answer not generated."

/-- Modelled from the spec: what the caller-visible answer resolution
`result_data.get("answer", "Error: Answer not generated.")`
(chat.py:151, 173) produces; the record store's row semantics for an
unresolved computed field (stage 7/8 failed) are not under src/, and per
the spec such a record exposes no answer value, here `stage8 = none`. -/
def resolve_answer (stage8 : Option String) : String :=
  stage8.getD ANSWER_SENTINEL

/-- The two chat-history inserts of one successful submission
(chat.py:142-158): the user turn content, and the assistant turn content
when one is written. -/
structure HistoryWrites where
  user_content : String
  assistant_content : Option String
deriving DecidableEq

/-- `chat.py:145-158`: the user prompt is always inserted; the assistant
answer only if `answer and not answer.startswith("Error:")`. -/
def chat_history_writes (queryText : String) (stage8 : Option String) :
    HistoryWrites :=
  { user_content := queryText,
    assistant_content :=
      let answer := resolve_answer stage8
      if !answer.isEmpty && !(py_startswith answer "Error:") then some answer
      else none }

/-- C6: when stage 7/8 could not resolve, the endpoint's answer is the
sentinel `"Error: Answer not generated."`, which is an `"Error:"`-prefixed
descriptive string; when stage 8 resolved, the client-visible answer is
exactly stage 8's output. -/
theorem query_answer_sentinel :
    resolve_answer none = ANSWER_SENTINEL ∧
    resolve_answer none = "Error: Answer not generated." ∧
    py_startswith ANSWER_SENTINEL "Error:" = true ∧
    (∀ s : String, resolve_answer (some s) = s) := by
  exact ⟨rfl, rfl, by decide, fun s => rfl⟩

/-- C10: the user prompt is always recorded in chat history; an assistant
turn is recorded only when the answer is non-empty and does not start with
`"Error:"` — in particular the sentinel, any `"Error:"`-prefixed answer and
the unresolved-stage case are never recorded — and a non-empty answer not
starting with `"Error:"` is recorded verbatim. -/
theorem chat_history_write_policy :
    (∀ (q : String) (st : Option String),
      (chat_history_writes q st).user_content = q) ∧
    (∀ (q : String) (st : Option String),
      ((chat_history_writes q st).assistant_content.all
        (fun s => !s.isEmpty && !(py_startswith s "Error:"))) = true) ∧
    (∀ q : String,
      (chat_history_writes q none).assistant_content = none) ∧
    (∀ q : String,
      (chat_history_writes q (some ANSWER_SENTINEL)).assistant_content
        = none) ∧
    (∀ q s : String,
      (chat_history_writes q (some ("Error:" ++ s))).assistant_content
        = none) ∧
    (∀ q : String,
      (chat_history_writes q (some "")).assistant_content = none) ∧
    (∀ q s : String,
      (chat_history_writes q (some ("A" ++ s))).assistant_content
        = some ("A" ++ s)) := by
  refine ⟨fun q st => rfl, ?_, fun q => rfl, fun q => rfl,
    ?_, fun q => rfl, ?_⟩
  · intro q st
    simp only [chat_history_writes, resolve_answer, Option.all]
    cases st with
    | none => decide
    | some s =>
        simp only [Option.getD]
        cases hcond : (!s.isEmpty && !(py_startswith s "Error:")) <;> simp [hcond]
  · intro q s
    simp only [chat_history_writes, resolve_answer, Option.getD]
    have hpre : py_startswith ("Error:" ++ s) "Error:" = true := by
      simp only [py_startswith, String.data_append]
      exact (List.isPrefixOf_iff_prefix).mpr (List.prefix_append _ _)
    simp [hpre]
  · intro q s
    simp only [chat_history_writes, resolve_answer, Option.getD]
    have hne : ("A" ++ s).isEmpty = false := append_isEmpty_false "A" s (by decide)
    have hpre : py_startswith ("A" ++ s) "Error:" = false := by
      simp [py_startswith, String.data_append, List.isPrefixOf]
    simp [hne, hpre]

/-! ## `routers/database.py` — pipeline graph reconstructor

`tbl.get_metadata()` is an oracle (`TableMetaIn`); the per-column sampled
error count (`_count_col_errors`, which returns 0 on any exception) is the
oracle field `err_count`.  The two regexes are embedded by their exact
semantics over ASCII word runs: a maximal run of `[A-Za-z0-9_]` characters
matches `\b([a-z_][a-z0-9_]*)\b` iff the whole run is of that shape (a `\b`
can only sit at the run boundary), and `\b([a-z_][a-z0-9_]*)\s*\(` matches
iff in addition the text following the run starts, after whitespace, with
an opening parenthesis.  The `indices` and `versions` fields of a node are
metadata pass-throughs with no bearing on the reconstruction logic and are
omitted. -/

/-- `skip` stoplist of `_extract_func_name` (database.py:364). -/
def FUNC_SKIP : List String :=
  ["model", "config", "type", "object", "items", "str", "get", "text"]

/-- `_BUILTIN_FUNCS` (database.py:317-325). -/
def BUILTIN_FUNCS : List String :=
  ["transcriptions", "speech", "messages", "generate_content",
   "generate_images", "generate_videos", "extract_audio", "resize",
   "b64_encode", "clip", "map", "lambda"]

/-- `_CUSTOM_UDFS` (database.py:328-333). -/
def CUSTOM_UDFS : List String :=
  ["get_latest_news", "search_news", "fetch_financial_data",
   "extract_document_text", "assemble_multimodal_context",
   "assemble_final_messages", "assemble_follow_up_prompt"]

/-- `_QUERY_TABLE_MAP` (database.py:336-346). -/
def QUERY_TABLE_MAP : List (String × String) :=
  [("search_documents", "agents/chunks"),
   ("search_images", "agents/images"),
   ("search_video_frames", "agents/video_frames"),
   ("search_video_transcripts", "agents/video_transcript_sentences"),
   ("search_audio_transcripts", "agents/audio_transcript_sentences"),
   ("search_memory", "agents/memory_bank"),
   ("search_chat_history", "agents/chat_history"),
   ("get_recent_chat_history", "agents/chat_history"),
   ("get_all_memory", "agents/memory_bank")]

/-- `_classify_func` (database.py:349-357). -/
def classify_func (name : String) : String :=
  if (QUERY_TABLE_MAP.map Prod.fst).contains name then "query"
  else if CUSTOM_UDFS.contains name then "custom_udf"
  else if BUILTIN_FUNCS.contains name then "builtin"
  else "unknown"

/-- `[a-z_]`. -/
def is_name_start (c : Char) : Bool :=
  (decide ('a' ≤ c) && decide (c ≤ 'z')) || c == '_'

/-- `[a-z0-9_]`. -/
def is_name_char (c : Char) : Bool :=
  is_name_start c || (decide ('0' ≤ c) && decide (c ≤ '9'))

/-- A regex word character `\w` (ASCII). -/
def is_word_char (c : Char) : Bool :=
  is_name_char c || (decide ('A' ≤ c) && decide (c ≤ 'Z'))

/-- Whether a full word run matches `[a-z_][a-z0-9_]*`. -/
def valid_name : List Char → Bool
  | [] => false
  | c :: rest => is_name_start c && rest.all is_name_char

/-- The maximal word-character runs of a string, each paired with the text
that follows it. -/
def word_runs : List Char → List (List Char × List Char)
  | [] => []
  | c :: cs =>
    if is_word_char c then
      match cs, word_runs cs with
      | c2 :: _, (r, suf) :: tail =>
          if is_word_char c2 then (c :: r, suf) :: tail
          else ([c], cs) :: (r, suf) :: tail
      | _, rest => ([c], cs) :: rest
    else word_runs cs

/-- The successive matches of `_FUNC_CALL_RE` (database.py:314). -/
def re_func_call_matches (s : String) : List String :=
  (word_runs s.data).filterMap (fun p =>
    if valid_name p.1
        && (match p.2.dropWhile Char.isWhitespace with
            | c :: _ => c == '('
            | [] => false) then
      some (String.mk p.1)
    else none)

/-- `_extract_func_name` (database.py:360-369). -/
def extract_func_name (computed_with : Option String) : Option String :=
  match computed_with with
  | none => none
  | some s =>
    if s.isEmpty then none
    else (re_func_call_matches s).find? (fun n => !FUNC_SKIP.contains n)

/-- The matches of `_COL_REF_RE` (database.py:313). -/
def re_col_tokens (s : String) : List String :=
  (word_runs s.data).filterMap (fun p =>
    if valid_name p.1 then some (String.mk p.1) else none)

/-- `_parse_deps` (database.py:372-377): `sorted(set(...))`. -/
def parse_deps (computed_with : Option String) (all_cols : List String) :
    List String :=
  match computed_with with
  | none => []
  | some s =>
    if s.isEmpty then []
    else
      (((re_col_tokens s).filter (fun t => all_cols.contains t)).eraseDups).mergeSort
        (fun a b => decide (a ≤ b))

/-- One entry of `get_metadata()["columns"]` plus the sampled error count
oracle of `_count_col_errors`. -/
structure ColMetaIn where
  name : String
  type_ : String
  computed_with : Option String
  defined_in : Option String
  err_count : Nat
deriving DecidableEq

/-- One table's metadata as read by `get_pipeline`. -/
structure TableMetaIn where
  path : String
  is_view : Bool
  base : Option String
  row_count : Nat
  version : Nat
  cols : List ColMetaIn
deriving DecidableEq

/-- One `col_entry` dict of `get_pipeline` (database.py:445-454 plus the
`error_count` and `depends_on` keys added later). -/
structure ColEntry where
  name : String
  type_ : String
  is_computed : Bool
  computed_with : Option String
  defined_in : Option String
  defined_in_self : Bool
  func_name : Option String
  func_type : Option String
  error_count : Nat
  depends_on : Option (List String)
deriving DecidableEq

/-- `path.rsplit("/", 1)[-1]`: everything after the last slash. -/
def short_name (path : String) : String :=
  String.mk ((path.data.reverse.takeWhile (fun c => c != Char.ofNat 47)).reverse)

/-- The per-column processing of `get_pipeline` (database.py:434-473). -/
def build_col_entry (sname : String) (all_cols : List String)
    (c : ColMetaIn) : ColEntry :=
  let is_computed := c.computed_with.isSome
  let cw_str : Option String :=
    match c.computed_with with
    | some s => if s.isEmpty then none else some (py_slice s 200)
    | none => none
  let func_name := if is_computed then extract_func_name cw_str else none
  let func_type :=
    match func_name with
    | some n => some (classify_func n)
    | none => none
  { name := c.name, type_ := c.type_, is_computed := is_computed,
    computed_with := cw_str, defined_in := c.defined_in,
    defined_in_self := c.defined_in == some sname,
    func_name := func_name, func_type := func_type,
    error_count := if is_computed then c.err_count else 0,
    depends_on :=
      if is_computed && cw_str.isSome then some (parse_deps cw_str all_cols)
      else none }

/-- `_detect_iterator` (database.py:380-391): nonempty intersection of the
view's own columns with each iterator's signature set. -/
def detect_iterator (columns : List ColEntry) : Option String :=
  let own_cols := (columns.filter (fun c => c.defined_in_self)).map
    (fun c => c.name)
  if ["frame_idx", "pos_frame", "frame"].any (fun n => own_cols.contains n) then
    some "FrameIterator"
  else if own_cols.contains "audio_chunk"
      && (["start_time_sec", "end_time_sec"].any
          (fun n => own_cols.contains n)) then
    some "AudioSplitter"
  else if (["heading", "page", "title"].any (fun n => own_cols.contains n))
      && own_cols.contains "pos" then
    some "DocumentSplitter"
  else if own_cols.contains "text" && own_cols.contains "pos" then
    some "StringSplitter"
  else none

/-- One node of the reconstructed graph (database.py:508-522; the
`indices`/`versions` pass-throughs omitted). -/
structure PipelineNode where
  path : String
  name : String
  is_view : Bool
  base : Option String
  row_count : Nat
  version : Nat
  total_errors : Nat
  columns : List ColEntry
  computed_count : Nat
  insertable_count : Nat
  iterator_type : Option String
deriving DecidableEq

/-- One edge of the reconstructed graph. -/
structure PipelineEdge where
  source : String
  target : String
  type : String
  label : String
deriving DecidableEq

/-- The node `get_pipeline` builds for one table (database.py:419-522). -/
def build_node (m : TableMetaIn) : PipelineNode :=
  let sname := short_name m.path
  let all_col_names := m.cols.map (fun c => c.name)
  let columns := m.cols.map (build_col_entry sname all_col_names)
  let computed_count := (columns.filter (fun c => c.is_computed)).length
  let iterator_type := if m.is_view then detect_iterator columns else none
  { path := m.path, name := sname, is_view := m.is_view, base := m.base,
    row_count := m.row_count, version := m.version,
    total_errors := (columns.map (fun c => c.error_count)).sum,
    columns := columns, computed_count := computed_count,
    insertable_count := columns.length - computed_count,
    iterator_type := iterator_type }

/-- The `view` edge of one table (database.py:524-530): emitted when the
table is a view with a truthy base path, labeled with the detected iterator
(falling back to `"view"`). -/
def view_edge (m : TableMetaIn) : List PipelineEdge :=
  if m.is_view then
    match m.base with
    | some b =>
      if b.isEmpty then []
      else
        [{ source := b, target := m.path, type := "view",
           label := (build_node m).iterator_type.getD "view" }]
    | none => []
  else []

/-- The cross-table `query` edges of one table (database.py:532-546), with
per-table deduplication via `seen_query_targets`. -/
def query_edges_go (path : String) :
    List ColEntry → List String → List PipelineEdge
  | [], _ => []
  | c :: rest, seen =>
    match c.func_name with
    | some fn =>
      if !fn.isEmpty then
        match QUERY_TABLE_MAP.lookup fn with
        | some tgt =>
          let key := path ++ "->" ++ tgt
          if seen.contains key then query_edges_go path rest seen
          else
            { source := tgt, target := path, type := "query", label := fn }
              :: query_edges_go path rest (key :: seen)
        | none => query_edges_go path rest seen
      else query_edges_go path rest seen
    | none => query_edges_go path rest seen

/-- All edges one table contributes, in emission order. -/
def build_edges (m : TableMetaIn) : List PipelineEdge :=
  view_edge m ++ query_edges_go m.path (build_node m).columns []

/-- The `{nodes, edges}` payload of `get_pipeline` (database.py:405-566),
over the already-fetched metadata of the (sorted) table list. -/
def get_pipeline (metas : List TableMetaIn) :
    List PipelineNode × List PipelineEdge :=
  (metas.map build_node, (metas.map build_edges).flatten)

/-- A view's own (non-inherited) column names, as `_detect_iterator`
collects them. -/
def own_col_names (m : TableMetaIn) : List String :=
  (((build_node m).columns).filter (fun c => c.defined_in_self)).map
    (fun c => c.name)

theorem query_edges_go_type (path : String) :
    ∀ (cols : List ColEntry) (seen : List String) (e : PipelineEdge),
      e ∈ query_edges_go path cols seen → e.type = "query" := by
  intro cols
  induction cols with
  | nil =>
      intro seen e he
      simp [query_edges_go] at he
  | cons c rest ih =>
      intro seen e he
      cases hfn : c.func_name with
      | none =>
          rw [query_edges_go, hfn] at he
          exact ih seen e he
      | some fn =>
          rw [query_edges_go, hfn] at he
          cases hemp : fn.isEmpty with
          | true =>
              simp only [hemp, Bool.not_true, Bool.false_eq_true,
                if_false] at he
              exact ih seen e he
          | false =>
              simp only [hemp, Bool.not_false, if_true] at he
              cases hlk : QUERY_TABLE_MAP.lookup fn with
              | none =>
                  rw [hlk] at he
                  exact ih seen e he
              | some tgt =>
                  rw [hlk] at he
                  cases hseen : seen.contains (path ++ "->" ++ tgt) with
                  | true =>
                      simp only [hseen, if_true] at he
                      exact ih seen e he
                  | false =>
                      simp only [hseen, Bool.false_eq_true, if_false,
                        List.mem_cons] at he
                      rcases he with rfl | he
                      · rfl
                      · exact ih _ e he

theorem build_edges_filter_ne (m : TableMetaIn) (t : String)
    (hne : m.path ≠ t) :
    (build_edges m).filter
      (fun e => e.type == "view" && e.target == t) = [] := by
  rw [build_edges, List.filter_append]
  have hq : (query_edges_go m.path (build_node m).columns []).filter
      (fun e => e.type == "view" && e.target == t) = [] := by
    refine List.filter_eq_nil_iff.mpr ?_
    intro e he
    rw [query_edges_go_type m.path _ _ e he]
    simp
  have hv : (view_edge m).filter
      (fun e => e.type == "view" && e.target == t) = [] := by
    rw [view_edge]
    cases m.is_view with
    | false => simp
    | true =>
        simp only [if_true]
        cases m.base with
        | none => simp
        | some b =>
            cases hb : b.isEmpty with
            | true => simp [hb]
            | false =>
                simp only [hb, Bool.false_eq_true, if_false]
                have hbeq : (m.path == t) = false := by
                  simpa using hne
                simp [List.filter, hbeq]
  rw [hq, hv]
  rfl

theorem detect_iterator_frame (columns : List ColEntry)
    (h : "frame_idx" ∈ (columns.filter
      (fun c => c.defined_in_self)).map (fun c => c.name)) :
    detect_iterator columns = some "FrameIterator" := by
  have hc : ((columns.filter (fun c => c.defined_in_self)).map
      (fun c => c.name)).contains "frame_idx" = true := by
    simpa using h
  simp only [detect_iterator]
  have hany : (["frame_idx", "pos_frame", "frame"].any
      (fun n => (((columns.filter (fun c => c.defined_in_self)).map
        (fun c => c.name))).contains n)) = true := by
    simp only [List.any_cons]
    rw [hc]
    simp
  rw [hany]
  simp

theorem frame_iterator_detected (v : TableMetaIn) (hview : v.is_view = true)
    (h1 : "frame_idx" ∈ own_col_names v) :
    (build_node v).iterator_type = some "FrameIterator" := by
  have h1' := h1
  simp only [own_col_names, build_node] at h1'
  simp only [build_node]
  rw [hview]
  simp only [if_true]
  exact detect_iterator_frame _ h1'

theorem build_edges_filter_self (v : TableMetaIn) (b : String)
    (hview : v.is_view = true) (hbase : v.base = some b) (hbne : b ≠ "")
    (h1 : "frame_idx" ∈ own_col_names v) :
    (build_edges v).filter
      (fun e => e.type == "view" && e.target == v.path)
      = [{ source := b, target := v.path, type := "view",
           label := "FrameIterator" }] := by
  rw [build_edges, List.filter_append]
  have hq : (query_edges_go v.path (build_node v).columns []).filter
      (fun e => e.type == "view" && e.target == v.path) = [] := by
    refine List.filter_eq_nil_iff.mpr ?_
    intro e he
    rw [query_edges_go_type v.path _ _ e he]
    simp
  have hbE : b.isEmpty = false := by
    cases hE : b.isEmpty with
    | false => rfl
    | true => exact absurd ((String.isEmpty_iff _).mp hE) hbne
  have hv : (view_edge v).filter
      (fun e => e.type == "view" && e.target == v.path)
      = [{ source := b, target := v.path, type := "view",
           label := "FrameIterator" }] := by
    rw [view_edge, hview, hbase]
    simp only [if_true, hbE, Bool.false_eq_true, if_false]
    rw [frame_iterator_detected v hview h1]
    simp [List.filter]
  rw [hq, hv]
  simp

theorem flatten_filter_ne (t : String) :
    ∀ (l : List TableMetaIn), (∀ m ∈ l, m.path ≠ t) →
      ((l.map build_edges).flatten.filter
        (fun e => e.type == "view" && e.target == t)) = [] := by
  intro l
  induction l with
  | nil => intro _; simp
  | cons m rest ih =>
      intro hl
      rw [List.map_cons, List.flatten_cons, List.filter_append]
      rw [build_edges_filter_ne m t (hl m (List.mem_cons_self m rest)),
        ih (fun x hx => hl x (List.mem_cons_of_mem m hx))]
      rfl

/-- C8: in the reconstructed graph, a view whose own columns include the
frame-extraction columns `frame_idx`, `pos_frame`, `frame` contributes
exactly one `view→base` edge, labeled `"FrameIterator"` (assuming the
catalog lists each path once and the view has a truthy base path); and a
table none of whose columns is computed gets no `depends_on` list on any
column, i.e. zero field→field dependency edges. -/
theorem pipeline_graph_frame_view_edges :
    (∀ (l₁ l₂ : List TableMetaIn) (v : TableMetaIn) (b : String),
      (∀ m ∈ l₁ ++ l₂, m.path ≠ v.path) →
      v.is_view = true → v.base = some b → b ≠ "" →
      "frame_idx" ∈ own_col_names v →
      "pos_frame" ∈ own_col_names v →
      "frame" ∈ own_col_names v →
      ((get_pipeline (l₁ ++ v :: l₂)).2.filter
          (fun e => e.type == "view" && e.target == v.path))
        = [{ source := b, target := v.path, type := "view",
             label := "FrameIterator" }]) ∧
    (∀ (m : TableMetaIn), (∀ c ∈ m.cols, c.computed_with = none) →
      ∀ ce ∈ (build_node m).columns,
        ce.depends_on = none ∧ ce.is_computed = false) := by
  constructor
  · intro l₁ l₂ v b hothers hview hbase hbne h1 _h2 _h3
    have hsplit : ∀ m ∈ l₁, m.path ≠ v.path :=
      fun m hm => hothers m (List.mem_append.mpr (Or.inl hm))
    have hsplit2 : ∀ m ∈ l₂, m.path ≠ v.path :=
      fun m hm => hothers m (List.mem_append.mpr (Or.inr hm))
    rw [get_pipeline]
    simp only [List.map_append, List.map_cons, List.flatten_append,
      List.flatten_cons, List.filter_append]
    rw [flatten_filter_ne v.path l₁ hsplit,
      flatten_filter_ne v.path l₂ hsplit2,
      build_edges_filter_self v b hview hbase hbne h1]
    simp
  · intro m hm ce hce
    simp only [build_node, List.mem_map] at hce
    obtain ⟨c, hc, rfl⟩ := hce
    have hcw : c.computed_with = none := hm c hc
    simp [build_col_entry, hcw]

/-- Metadata of the `agents.videos` base table. -/
def c8_videos : TableMetaIn :=
  { path := "agents/videos", is_view := false, base := none,
    row_count := 1, version := 3,
    cols := [⟨"video", "video", none, some "videos", 0⟩,
             ⟨"uuid", "string", none, some "videos", 0⟩,
             ⟨"timestamp", "timestamp", none, some "videos", 0⟩,
             ⟨"user_id", "string", none, some "videos", 0⟩,
             ⟨"audio", "audio", some "extract_audio(video, format=mp3)",
               some "videos", 0⟩] }

/-- Metadata of the `agents.video_frames` view over `agents.videos`, whose
own columns include the `FrameIterator` trio. -/
def c8_video_frames : TableMetaIn :=
  { path := "agents/video_frames", is_view := true,
    base := some "agents/videos", row_count := 12, version := 2,
    cols := [⟨"video", "video", none, some "videos", 0⟩,
             ⟨"frame_idx", "int", none, some "video_frames", 0⟩,
             ⟨"pos_frame", "int", none, some "video_frames", 0⟩,
             ⟨"frame", "image", none, some "video_frames", 0⟩,
             ⟨"frame_thumbnail", "string",
               some "b64_encode(resize(frame, size=(192, 192)))",
               some "video_frames", 0⟩] }

/-- Metadata of the `agents.chat_history` table: no computed columns. -/
def c8_chat_history : TableMetaIn :=
  { path := "agents/chat_history", is_view := false, base := none,
    row_count := 0, version := 0,
    cols := [⟨"role", "string", none, some "chat_history", 0⟩,
             ⟨"content", "string", none, some "chat_history", 0⟩,
             ⟨"timestamp", "timestamp", none, some "chat_history", 0⟩,
             ⟨"user_id", "string", none, some "chat_history", 0⟩] }

/-- Witness for C8 on the concrete videos / video_frames / chat_history
schema. -/
theorem pipeline_graph_frame_view_edges_witness :
    ((get_pipeline [c8_videos, c8_video_frames]).2.filter
        (fun e => e.type == "view" && e.target == "agents/video_frames"))
      = [{ source := "agents/videos", target := "agents/video_frames",
           type := "view", label := "FrameIterator" }] ∧
    ((build_node c8_chat_history).columns.all
        (fun ce => ce.depends_on == none && !ce.is_computed)) = true := by
  constructor
  · exact pipeline_graph_frame_view_edges.1 [c8_videos] [] c8_video_frames
      "agents/videos" (by decide) rfl rfl (by decide) (by decide) (by decide)
      (by decide)
  · refine List.all_eq_true.mpr ?_
    intro ce hce
    have h := pipeline_graph_frame_view_edges.2 c8_chat_history
      (by decide) ce hce
    simp [h.1, h.2]

/-- The `computed_with` repr of the `summary` column of `agents.collection`
(setup_pixeltable.py:77-80): a pure field projection with no call-like
token. -/
def c9_cw : String := "summary_response.candidates[0].content.parts[0].text"

/-- The column names of `agents.collection`. -/
def c9_cols : List String :=
  ["document", "uuid", "timestamp", "user_id", "document_text",
   "summary_response", "summary"]

/-- The `summary` column's metadata. -/
def c9_summary_col : ColMetaIn :=
  { name := "summary", type_ := "string", computed_with := some c9_cw,
    defined_in := some "collection", err_count := 0 }

set_option maxRecDepth 40000 in
/-- C9 counterexample: on the real `summary` expression, which contains no
call-like token, the emitted classification is `null` (not the string
`"unknown"`) and the dependency list is `["summary_response"]`, not empty. -/
theorem reconstructor_no_call_token_counterexample :
    extract_func_name (some c9_cw) = none ∧
    (build_col_entry "collection" c9_cols c9_summary_col).func_type = none ∧
    (build_col_entry "collection" c9_cols c9_summary_col).func_type
      ≠ some "unknown" ∧
    (build_col_entry "collection" c9_cols c9_summary_col).depends_on
      = some ["summary_response"] ∧
    ¬ ((build_col_entry "collection" c9_cols c9_summary_col).func_type
          = some "unknown"
        ∧ ((build_col_entry "collection" c9_cols
            c9_summary_col).depends_on.getD []) = []) := by
  have hne : c9_cw.isEmpty = false := by decide
  have hslice : py_slice c9_cw 200 = c9_cw := by decide
  have hex : extract_func_name (some c9_cw) = none := by decide
  have hfilter : ((re_col_tokens c9_cw).filter
      (fun t => c9_cols.contains t)).eraseDups = ["summary_response"] := by
    decide
  have hdeps : parse_deps (some c9_cw) c9_cols = ["summary_response"] := by
    simp only [parse_deps, hne, Bool.false_eq_true, if_false]
    rw [hfilter]
    simp [List.mergeSort]
  refine ⟨hex, ?_, ?_, ?_, ?_⟩
  · simp [build_col_entry, c9_summary_col, hne, hslice, hex]
  · simp [build_col_entry, c9_summary_col, hne, hslice, hex]
  · simp [build_col_entry, c9_summary_col, hne, hslice, hdeps]
  · simp [build_col_entry, c9_summary_col, hne, hslice, hex]

/-- C9 (amended): a `None` or empty derivation expression yields no
function name — surfaced as a `null` `func_type`, not as `"unknown"` — and
an empty dependency list; a call token that is in none of the query, custom
UDF, or builtin registries classifies as `"unknown"`; and the extractor,
classifier and dependency extractor are total functions (no exception). -/
theorem reconstructor_unparseable_degrades :
    extract_func_name none = none ∧
    extract_func_name (some "") = none ∧
    (∀ cols : List String, parse_deps none cols = []) ∧
    (∀ cols : List String, parse_deps (some "") cols = []) ∧
    (∀ (sname : String) (cols : List String) (nm ty : String)
        (di : Option String) (ec : Nat),
      (build_col_entry sname cols ⟨nm, ty, none, di, ec⟩).func_name = none ∧
      (build_col_entry sname cols ⟨nm, ty, none, di, ec⟩).func_type = none ∧
      (build_col_entry sname cols ⟨nm, ty, none, di, ec⟩).depends_on
        = none) ∧
    (∀ (sname : String) (cols : List String) (nm ty : String)
        (di : Option String) (ec : Nat),
      (build_col_entry sname cols ⟨nm, ty, some "", di, ec⟩).func_name
        = none ∧
      (build_col_entry sname cols ⟨nm, ty, some "", di, ec⟩).func_type
        = none ∧
      (build_col_entry sname cols ⟨nm, ty, some "", di, ec⟩).depends_on
        = none) ∧
    (∀ n : String,
      ((QUERY_TABLE_MAP.map Prod.fst).contains n || CUSTOM_UDFS.contains n
        || BUILTIN_FUNCS.contains n) = true
      ∨ classify_func n = "unknown") := by
  refine ⟨rfl, rfl, fun cols => rfl, fun cols => rfl, ?_, ?_, ?_⟩
  · intro sname cols nm ty di ec
    refine ⟨?_, ?_, ?_⟩ <;> simp [build_col_entry]
  · intro sname cols nm ty di ec
    refine ⟨?_, ?_, ?_⟩ <;>
      simp [build_col_entry, extract_func_name,
        show ("" : String).isEmpty = true from rfl]
  · intro n
    cases hq : (QUERY_TABLE_MAP.map Prod.fst).contains n with
    | true => exact Or.inl (by simp [hq])
    | false =>
        cases hc : CUSTOM_UDFS.contains n with
        | true => exact Or.inl (by simp [hc])
        | false =>
            cases hb : BUILTIN_FUNCS.contains n with
            | true => exact Or.inl (by simp [hb])
            | false =>
                refine Or.inr ?_
                simp only [classify_func]
                rw [hq, hc, hb]
                simp

end Pixelbot
